import Mathlib

/-!
Verification development for the dialogue path ranker implemented in
`deeppavlov/models/kbqa/kg_dial_generator.py` (class `DialPathRanker`,
method `__call__`, lines 100-190).  The Python method is embedded shallowly:
the three JSON lookup tables and the two external collaborators
(`wiki_parser`, `path_ranker`) become fields of an environment record, the
per-item loop body becomes `processItem`, and Python runtime errors
(NameError, ValueError, ZeroDivisionError, IndexError) become an explicit
error type threaded through `Except`.  The configuration flag
`use_api_requester` is modelled as false, i.e. no extra unwrapping layer on
the collaborator results.  Python floats are modelled as rationals except
for the logarithmic confidence value, which is interpreted over the reals by
`Conf.val`.
-/

namespace KGDial

/-- Relation path: an ordered sequence of relation identifiers
(`tuple(path)` in the source). -/
abbrev Path := List String

/-- An entity reference in the input batch: the source tolerates either a
plain identifier or a nested list of identifiers (lines 106-108). -/
inductive Entity where
  | str (s : String)
  | lst (l : List String)
  deriving DecidableEq

/-- Runtime errors the Python code can raise inside
`DialPathRanker.__call__`. -/
inductive PyErr where
  | nameError
  | valueError
  | zeroDivisionError
  | indexError
  deriving DecidableEq

/-- Confidence result of one batch item: either one of the constant
sentinels (2/5 = 0.4 for an empty entity list, 0 otherwise) or the
frequency-scored confidence determined by the average relation frequency
`raw` of the chosen path (lines 174-176). -/
inductive Conf where
  | const (q : ℚ)
  | scored (raw : ℚ)
  deriving DecidableEq

/-- Real value of a confidence: a sentinel denotes itself, a scored
confidence denotes `min(log(raw) / max_log_freq, 1.0) * 0.9` as computed at
lines 174-176. -/
noncomputable def Conf.val (mlf : ℚ) : Conf → ℝ
  | .const q => (q : ℝ)
  | .scored raw => min (Real.log (raw : ℝ) / (mlf : ℝ)) 1 * 0.9

/-- Environment of a `DialPathRanker` instance: the three JSON tables loaded
at construction, the external graph service and ranking service, and the
configuration.  `find_object t` answers the query `(t, "P279", "forw")`.
Dictionary lookups written `d.get(key, default)` in Python are modelled by
total functions; `rel_freq` keeps the `Option` so that a missing relation is
distinguishable from a present entry. -/
structure RankerEnv where
  find_types : String → List String
  find_object : String → List String
  retrieve_paths : String → List Path → List Path × List (List String)
  rank_paths : String → List Path → List (Path × ℚ)
  type_paths : String → List (Path × ℚ)
  type_groups : String → List String
  rel_freq : String → Option (List ℚ)
  max_log_freq : ℚ
  use_path_stat : Bool

/-- Comparison used to sort scored candidate pairs by descending score
(line 121: `sorted(..., key=lambda x: x[1], reverse=True)`). -/
def scoreDesc (a b : Path × ℚ) : Prop := b.2 ≤ a.2

instance : DecidableRel scoreDesc := fun a b => inferInstanceAs (Decidable (b.2 ≤ a.2))

instance : IsTotal (Path × ℚ) scoreDesc := ⟨fun a b => le_total b.2 a.2⟩

instance : IsTrans (Path × ℚ) scoreDesc := ⟨fun _ _ _ h1 h2 => le_trans h2 h1⟩

/-- Scored candidate pairs in statistic mode: the union over the entity
types of the `(path, score)` entries of the type-path table (lines 117-119)
as a deduplicated list, sorted by descending score (line 121).  As in the
source, where the set elements are `tuple([tuple(path), score])`,
deduplication is on the whole (path, score) pair. -/
def statPairs (env : RankerEnv) (types : List String) : List (Path × ℚ) :=
  (types.flatMap env.type_paths).dedup.insertionSort scoreDesc

/-- Candidate paths in statistic mode (line 122): the sorted pairs with the
score projected away. -/
def buildCandidatesStat (env : RankerEnv) (types : List String) : List Path :=
  (statPairs env types).map Prod.fst

/-- Candidate paths in ranking mode (lines 124-126): the union over the
entity types of the paths alone, deduplicated. -/
def buildCandidatesRank (env : RankerEnv) (types : List String) : List Path :=
  (types.flatMap (fun t => (env.type_paths t).map Prod.fst)).dedup

/-- Candidate-path construction, dispatching on `use_path_stat`
(lines 116-126). -/
def buildCandidates (env : RankerEnv) (types : List String) : List Path :=
  if env.use_path_stat then buildCandidatesStat env types else buildCandidatesRank env types

/-- Fallback candidate construction (lines 127-148), entered when the direct
candidate set is empty.  The source queries the P279 (subclass-of) objects
of every entity type; whenever some subclass group intersects the entity
types, line 137 evaluates the undefined name `subclass_groups`, so Python
raises a NameError.  Otherwise the accumulator `add_entity_types` is never
used again and lines 138-148 rebuild the candidate set over the original,
unexpanded entity types. -/
def fallbackCandidates (env : RankerEnv) (types : List String) : Except PyErr (List Path) :=
  if (types.flatMap env.find_object).any
      (fun sc => (env.type_groups sc).any (fun t => types.contains t)) then
    .error .nameError
  else
    .ok (buildCandidates env types)

/-- Candidate set after the empty-candidates fallback (lines 116-148). -/
def candidatesAfterFallback (env : RankerEnv) (types : List String) : Except PyErr (List Path) :=
  if (buildCandidates env types).isEmpty then fallbackCandidates env types
  else .ok (buildCandidates env types)

/-- Entity types of the seed entity (lines 110-113): `find_types` result
turned into a set. -/
def typesOf (env : RankerEnv) (e : String) : List String := (env.find_types e).dedup

/-- Top paths sent to graph retrieval (lines 156-161): in statistic mode the
pre-sorted candidates themselves, in ranking mode the paths returned by
`path_ranker.rank_paths` in order. -/
def topPaths (env : RankerEnv) (u : String) (cands : List Path) : List Path :=
  if env.use_path_stat then cands else (env.rank_paths u cands).map Prod.fst

/-- First element of a relation's frequency entry, 0 for a missing relation
(line 174: `self.rel_freq.get(rel, [0])[0]`; present entries are assumed to
be nonempty arrays, as in the data format). -/
def freqOf (env : RankerEnv) (rel : String) : ℚ := ((env.rel_freq rel).getD [0]).headD 0

/-- Confidence scoring of lines 174-176 for the chosen relation sequence.
Python raises ZeroDivisionError when the sequence is empty and ValueError
from `math.log` when the average frequency is not positive. -/
def scoreConf (env : RankerEnv) (rels : List String) : Except PyErr Conf :=
  if rels.length = 0 then .error .zeroDivisionError
  else if (rels.map (freqOf env)).sum / (rels.length : ℚ) ≤ 0 then .error .valueError
  else .ok (.scored ((rels.map (freqOf env)).sum / (rels.length : ℚ)))

/-- Seed-entity extraction (lines 106-108): the first entity of the list;
when it is itself a list, its first element (IndexError when that inner
list is empty). -/
def extractSeed : List Entity → Except PyErr String
  | [] => .error .indexError
  | .str s :: _ => .ok s
  | .lst [] :: _ => .error .indexError
  | .lst (s :: _) :: _ => .ok s

/-- Body of the non-empty-entities branch of the per-item loop
(lines 109-183), after the seed entity has been extracted: candidate
construction with fallback, retrieval of concrete paths for the top
candidates, and confidence scoring of the first retrieved path. -/
def afterSeed (env : RankerEnv) (u : String) (e : String) : Except PyErr (Path × Conf) :=
  match candidatesAfterFallback env (typesOf env e) with
  | .error err => .error err
  | .ok cands =>
    if cands.isEmpty then .ok ([], .const 0)
    else
      match env.retrieve_paths e (topPaths env u cands) with
      | ([], _) => .ok ([], .const 0)
      | (chosen :: _, rels) =>
        match rels with
        | [] => .error .indexError
        | chosenRels :: _ =>
          match scoreConf env chosenRels with
          | .error err => .error err
          | .ok c => .ok (chosen, c)

/-- One iteration of the batch loop of `DialPathRanker.__call__`
(lines 104-186): either the empty-entities sentinel (2/5 = 0.4, lines
184-186) or the full candidate/retrieval/scoring pipeline. -/
def processItem (env : RankerEnv) (u : String) (el : List Entity) : Except PyErr (Path × Conf) :=
  match el with
  | [] => .ok ([], .const (2/5))
  | _ :: _ =>
    match extractSeed el with
    | .error err => .error err
    | .ok e => afterSeed env u e

/-- Sequenced processing of the zipped batch, propagating the first raised
error exactly as the Python loop would. -/
def runItems (env : RankerEnv) : List (String × List Entity) → Except PyErr (List (Path × Conf))
  | [] => .ok []
  | (u, el) :: rest =>
    match processItem env u el with
    | .error err => .error err
    | .ok pc =>
      match runItems env rest with
      | .error err => .error err
      | .ok pcs => .ok (pc :: pcs)

/-- Model of `DialPathRanker.__call__` (lines 100-190): zip the two batches,
process each pair, and return `paths_batch` and `conf_batch`. -/
def call (env : RankerEnv) (us : List String) (es : List (List Entity)) :
    Except PyErr (List Path × List Conf) :=
  match runItems env (us.zip es) with
  | .error err => .error err
  | .ok pcs => .ok (pcs.map Prod.fst, pcs.map Prod.snd)

instance {ε α : Type} [DecidableEq ε] [DecidableEq α] : DecidableEq (Except ε α) := fun a b =>
  match a, b with
  | .error e, .error f =>
    if h : e = f then .isTrue (by rw [h]) else .isFalse (by simp [h])
  | .error _, .ok _ => .isFalse (by simp)
  | .ok _, .error _ => .isFalse (by simp)
  | .ok x, .ok y =>
    if h : x = y then .isTrue (by rw [h]) else .isFalse (by simp [h])

/-- Concrete environment (ranking mode) in which the chosen path's relations
have average frequency 1/2: relation "P1" has frequency entry [1] and "P2"
has frequency entry [0]. -/
def envHalfFreq : RankerEnv :=
  ⟨fun _ => ["T"],
   fun _ => [],
   fun _ _ => ([["P1", "P2"]], [["P1", "P2"]]),
   fun _ cands => cands.map (fun p => (p, 1)),
   fun t => if t = "T" then [(["P1", "P2"], 1)] else [],
   fun _ => [],
   fun r => if r = "P1" then some [1] else if r = "P2" then some [0] else none,
   8, false⟩

/-- Concrete environment exercising the fallback branch: the seed's only
type "T1" has no path entry, its P279 object is "S1", and the type group of
"S1" intersects the seed's types. -/
def envFallbackHit : RankerEnv :=
  ⟨fun _ => ["T1"],
   fun t => if t = "T1" then ["S1"] else [],
   fun _ _ => ([], []),
   fun _ _ => [],
   fun _ => [],
   fun s => if s = "S1" then ["T1", "T2"] else [],
   fun _ => none,
   8, false⟩

/-- Concrete environment in which the chosen path's only relation "PX" is
missing from the frequency table, so the average frequency is 0. -/
def envZeroFreq : RankerEnv :=
  ⟨fun _ => ["T"],
   fun _ => [],
   fun _ _ => ([["PX"]], [["PX"]]),
   fun _ cands => cands.map (fun p => (p, 1)),
   fun t => if t = "T" then [(["PX"], 1)] else [],
   fun _ => [],
   fun _ => none,
   8, false⟩

/-- Concrete environment realizing the worked example of the specification:
statistic mode, one type "TypeA" with scored paths ["P31"] (0.9) and
["P21"] (0.5), retrieval confirming ["P31"], relation frequency table
mapping "P31" to [100], and max_log_freq = 8. -/
def envSpecExample : RankerEnv :=
  ⟨fun _ => ["TypeA"],
   fun _ => [],
   fun _ _ => ([["P31"]], [["P31"]]),
   fun _ _ => [],
   fun t => if t = "TypeA" then [(["P31"], 9/10), (["P21"], 1/2)] else [],
   fun _ => [],
   fun r => if r = "P31" then some [100] else none,
   8, true⟩

/-- Concrete environment with empty tables: no candidate paths exist for any
type and the fallback finds no subclasses. -/
def envEmptyTables : RankerEnv :=
  ⟨fun _ => ["T"],
   fun _ => [],
   fun _ _ => ([], []),
   fun _ _ => [],
   fun _ => [],
   fun _ => [],
   fun _ => none,
   8, false⟩

/-- Concrete environment (statistic mode) in which the same path ["P31"]
appears for two different types with two different scores. -/
def envDupPath : RankerEnv :=
  ⟨fun _ => ["A", "B"],
   fun _ => [],
   fun _ _ => ([], []),
   fun _ _ => [],
   fun t => if t = "A" then [(["P31"], 9/10)] else if t = "B" then [(["P31"], 1/2)] else [],
   fun _ => [],
   fun _ => none,
   8, true⟩

/-- Zipping two lists only consumes their common prefix: truncating both to
the minimum length first gives the same zipped list. -/
theorem zip_take_min {α β : Type} :
    ∀ (us : List α) (es : List β),
      (us.take (min us.length es.length)).zip (es.take (min us.length es.length)) = us.zip es
  | [], _ => by simp
  | _ :: _, [] => by simp
  | u :: us, e :: es => by
    simp only [List.length_cons, Nat.succ_min_succ, List.take_succ_cons, List.zip_cons_cons]
    rw [zip_take_min us es]

/-- Successful batch processing yields one result per zipped input pair. -/
theorem runItems_ok_length (env : RankerEnv) :
    ∀ (l : List (String × List Entity)) (r : List (Path × Conf)),
      runItems env l = .ok r → r.length = l.length := by
  intro l
  induction l with
  | nil => intro r h; simp only [runItems] at h; cases h; rfl
  | cons hd tl ih =>
    intro r h
    obtain ⟨u, el⟩ := hd
    simp only [runItems] at h
    split at h
    · exact absurd h (by simp)
    · split at h
      · exact absurd h (by simp)
      · cases h
        simp [ih _ (by assumption)]

/-- The candidate set that survives the fallback is always the one built
from the original entity types: the fallback of lines 127-148 never expands
the type set (it either raises or rebuilds over the same types). -/
theorem candidatesAfterFallback_ok (env : RankerEnv) (types : List String)
    (cands : List Path) (h : candidatesAfterFallback env (types) = .ok cands) :
    cands = buildCandidates env types := by
  unfold candidatesAfterFallback at h
  split at h
  · unfold fallbackCandidates at h
    split at h
    · exact absurd h (by simp)
    · cases h; rfl
  · cases h; rfl

/-- A scored confidence only arises from a positive average frequency: the
`raw <= 0` case raises instead (line 174, `math.log`). -/
theorem scoreConf_ok_pos (env : RankerEnv) (rels : List String) (raw : ℚ)
    (h : scoreConf env rels = .ok (.scored raw)) : 0 < raw := by
  unfold scoreConf at h
  split at h
  · exact absurd h (by simp)
  · split at h
    · exact absurd h (by simp)
    · rename_i hle
      simp only [Except.ok.injEq, Conf.scored.injEq] at h
      rw [h] at hle
      exact lt_of_not_le hle

/-- Any scored confidence produced by the per-item pipeline came out of
`scoreConf` on some relation sequence. -/
theorem processItem_ok_scored (env : RankerEnv) (u : String) (el : List Entity)
    (p : Path) (raw : ℚ)
    (h : processItem env u el = .ok (p, .scored raw)) :
    ∃ rels, scoreConf env rels = .ok (.scored raw) := by
  unfold processItem at h
  split at h
  · exact absurd h (by simp)
  · split at h
    · exact absurd h (by simp)
    · rename_i e _
      unfold afterSeed at h
      split at h
      · exact absurd h (by simp)
      · split at h
        · exact absurd h (by simp)
        · split at h
          · exact absurd h (by simp)
          · split at h
            · exact absurd h (by simp)
            · split at h
              · exact absurd h (by simp)
              · simp only [Except.ok.injEq, Prod.mk.injEq] at h
                obtain ⟨-, h2⟩ := h
                subst h2
                exact ⟨_, by assumption⟩

/-- C5: for every batch item whose entity list is empty, `DialPathRanker.__call__`
outputs exactly the pair (empty path, confidence 0.4): the per-item loop body
takes the lines 184-186 branch and appends `[]` and `0.4`. -/
theorem claim_C5 (env : RankerEnv) (u : String) (mlf : ℚ) :
    processItem env u [] = .ok ([], Conf.const (2/5)) ∧
    Conf.val mlf (Conf.const (2/5)) = 0.4 := by
  refine ⟨rfl, ?_⟩
  show ((2/5 : ℚ) : ℝ) = 0.4
  norm_num

/-- C2 (code bug): the claim describes the intended fallback — merge the
entity types of every intersecting subclass group into the working type set
and rebuild the candidates against the expanded set — but the code raises a
NameError (line 137 references the undefined name `subclass_groups`) as soon
as one subclass group intersects the seed entity types, as evaluated here on
a concrete input; and whenever it does not raise, it rebuilds the candidate
set over the original, unexpanded type set. -/
theorem claim_C2_code_bug :
    processItem envFallbackHit "u" [Entity.str "Q1"] = .error .nameError ∧
    ∀ (env : RankerEnv) (types : List String),
      fallbackCandidates env types = .error .nameError ∨
      fallbackCandidates env types = .ok (buildCandidates env types) := by
  refine ⟨by with_unfolding_all decide, ?_⟩
  intro env types
  unfold fallbackCandidates
  split
  · exact Or.inl rfl
  · exact Or.inr rfl

/-- C3 (code bug): the claim requires the zero average-frequency case to be
clamped to confidence 0.0 instead of propagating a numeric-domain failure,
but the code calls `math.log(0.0)` (line 174), which raises ValueError, as
evaluated here on a concrete input whose only chosen relation is missing
from the frequency table. -/
theorem claim_C3_code_bug :
    processItem envZeroFreq "u" [Entity.str "Q1"] = .error .valueError := by
  with_unfolding_all decide

/-- C6: for every batch item with a seed entity for which either the
candidate set after fallback is empty or graph retrieval materializes no
concrete path, `DialPathRanker.__call__` outputs exactly the pair
(empty path, confidence 0.0) (lines 153-183). -/
theorem claim_C6 (env : RankerEnv) (u : String) (el : List Entity) (e : String)
    (hseed : extractSeed el = .ok e)
    (hdone : candidatesAfterFallback env (typesOf env e) = .ok [] ∨
      ∃ cands, candidatesAfterFallback env (typesOf env e) = .ok cands ∧
        (env.retrieve_paths e (topPaths env u cands)).1 = []) :
    processItem env u el = .ok ([], Conf.const 0) ∧
    Conf.val env.max_log_freq (Conf.const 0) = 0 := by
  constructor
  · cases el with
    | nil => exact absurd hseed (by simp [extractSeed])
    | cons hd tl =>
      have hpi : processItem env u (hd :: tl) = afterSeed env u e := by
        simp only [processItem]
        rw [hseed]
      rw [hpi]
      unfold afterSeed
      rcases hdone with hc | ⟨cands, hc, hr⟩
      · split
        · rename_i err heq
          rw [hc] at heq
          exact absurd heq (by simp)
        · rename_i cs heq
          rw [hc] at heq
          injection heq with h2
          subst h2
          rfl
      · split
        · rename_i err heq
          rw [hc] at heq
          exact absurd heq (by simp)
        · rename_i cs heq
          rw [hc] at heq
          injection heq with h2
          subst h2
          by_cases hemp : cands.isEmpty = true
          · rw [if_pos hemp]
          · rw [if_neg hemp]
            split
            · rfl
            · rename_i chosen tail rels hp
              rw [hp] at hr
              exact absurd hr (by simp)
  · show ((0 : ℚ) : ℝ) = 0
    norm_num

/-- C6 witness: with empty tables the candidate set after fallback is empty
and the output is exactly (empty path, confidence 0.0). -/
theorem claim_C6_witness :
    processItem envEmptyTables "u" [Entity.str "Q1"] = .ok ([], Conf.const 0) ∧
    Conf.val envEmptyTables.max_log_freq (Conf.const 0) = 0 :=
  claim_C6 envEmptyTables "u" [Entity.str "Q1"] "Q1" rfl
    (Or.inl (by with_unfolding_all decide))

/-- C8 counterexample: in statistic mode the candidate set is deduplicated
on (path, score) pairs, not on paths, so the same path ["P31"] occurring for
two types with two different scores appears twice in the candidate list that
is sent onward — the claim that each Path occurs at most once in both modes
is false. -/
theorem claim_C8_counterexample :
    buildCandidates envDupPath (typesOf envDupPath "Q1") = [["P31"], ["P31"]] ∧
    ¬ (buildCandidates envDupPath (typesOf envDupPath "Q1")).Nodup := by
  with_unfolding_all decide

/-- C8 amended: in ranking mode the candidate set contains each Path at most
once; in statistic mode deduplication is applied to the (Path, score) pairs
— so those pairs are pairwise distinct, but the path list obtained by
projecting the scores away may repeat a Path that occurs with two distinct
scores. -/
theorem claim_C8_amended (env : RankerEnv) (types : List String) :
    (buildCandidatesRank env types).Nodup ∧
    (statPairs env types).Nodup ∧
    buildCandidatesStat env types = (statPairs env types).map Prod.fst := by
  refine ⟨List.nodup_dedup _, ?_, rfl⟩
  exact ((List.perm_insertionSort scoreDesc _).symm).nodup (List.nodup_dedup _)

/-- C9: every non-empty output path of `DialPathRanker.__call__` is the
first element of the retrieved-path list returned by the graph service's
`retrieve_paths` query for the item's seed entity (lines 164-183) — a path
confirmed retrievable, never a merely-candidate path. -/
theorem claim_C9 (env : RankerEnv) (u : String) (el : List Entity) (p : Path) (c : Conf)
    (hrun : processItem env u el = .ok (p, c)) (hne : p ≠ []) :
    ∃ e cands, extractSeed el = .ok e ∧
      candidatesAfterFallback env (typesOf env e) = .ok cands ∧
      cands ≠ [] ∧
      (env.retrieve_paths e (topPaths env u cands)).1.head? = some p := by
  unfold processItem at hrun
  split at hrun
  · simp only [Except.ok.injEq, Prod.mk.injEq] at hrun
    exact absurd hrun.1.symm hne
  · split at hrun
    · exact absurd hrun (by simp)
    · rename_i e hseed
      unfold afterSeed at hrun
      split at hrun
      · exact absurd hrun (by simp)
      · rename_i cands hcf
        split at hrun
        · rename_i hemp
          simp only [Except.ok.injEq, Prod.mk.injEq] at hrun
          exact absurd hrun.1.symm hne
        · rename_i hemp
          split at hrun
          · simp only [Except.ok.injEq, Prod.mk.injEq] at hrun
            exact absurd hrun.1.symm hne
          · rename_i chosen tail rels hret
            split at hrun
            · exact absurd hrun (by simp)
            · split at hrun
              · exact absurd hrun (by simp)
              · simp only [Except.ok.injEq, Prod.mk.injEq] at hrun
                refine ⟨e, cands, hseed, hcf, ?_, ?_⟩
                · intro hnil
                  rw [hnil] at hemp
                  exact hemp rfl
                · rw [hret]
                  simp [hrun.1]

/-- C9 witness: the concrete output path ["P31"] of the specification
example is the head of the retrieved-path list for seed entity "Q1". -/
theorem claim_C9_witness :
    ∃ e cands, extractSeed [Entity.str "Q1"] = .ok e ∧
      candidatesAfterFallback envSpecExample (typesOf envSpecExample e) = .ok cands ∧
      cands ≠ [] ∧
      (envSpecExample.retrieve_paths e
        (topPaths envSpecExample "u" cands)).1.head? = some ["P31"] :=
  claim_C9 envSpecExample "u" [Entity.str "Q1"] ["P31"] (Conf.scored 100)
    (by with_unfolding_all decide) (by simp)

/-- C10: mismatched batch lengths raise no error — `zip` truncates, only the
first min(len(utterances), len(entities)) items are processed, and both
returned lists have exactly that length (lines 104 and 189-190). -/
theorem claim_C10 (env : RankerEnv) (us : List String) (es : List (List Entity))
    (ps : List Path) (cs : List Conf)
    (h : call env us es = .ok (ps, cs)) :
    ps.length = min us.length es.length ∧
    cs.length = min us.length es.length ∧
    call env (us.take (min us.length es.length))
      (es.take (min us.length es.length)) = .ok (ps, cs) := by
  unfold call at h ⊢
  rw [zip_take_min us es]
  cases hr : runItems env (us.zip es) with
  | error err => rw [hr] at h; exact absurd h (by simp)
  | ok pcs =>
    rw [hr] at h
    simp only [Except.ok.injEq, Prod.mk.injEq] at h
    obtain ⟨h1, h2⟩ := h
    have hlen := runItems_ok_length env (us.zip es) pcs hr
    rw [List.length_zip] at hlen
    subst h1
    subst h2
    simp [hlen]

/-- C10 witness: a batch of two utterances and one entity list succeeds,
both outputs have length one, and processing the truncated batch gives the
same result. -/
theorem claim_C10_witness :
    ([([] : Path)]).length = min (["a", "b"] : List String).length
      ([([] : List Entity)]).length ∧
    ([Conf.const (2/5)]).length = min (["a", "b"] : List String).length
      ([([] : List Entity)]).length ∧
    call envEmptyTables ((["a", "b"] : List String).take
        (min (["a", "b"] : List String).length ([([] : List Entity)]).length))
      (([([] : List Entity)]).take
        (min (["a", "b"] : List String).length ([([] : List Entity)]).length)) =
      .ok ([[]], [Conf.const (2/5)]) :=
  claim_C10 envEmptyTables ["a", "b"] [[]] [[]] [Conf.const (2/5)] rfl

/-- C7: in statistic mode the list passed to graph retrieval is the
pre-sorted candidate list itself (lines 156-157), and its first path carries
the highest precomputed score among all (path, score) entries of the seed
entity's types (lines 116-122); the order comes from sorting the table
entries by score descending, with no score recomputation. -/
theorem claim_C7 (env : RankerEnv) (u : String) (types : List String)
    (p : Path) (rest : List Path)
    (hstat : env.use_path_stat = true)
    (hc : candidatesAfterFallback env types = .ok (p :: rest)) :
    topPaths env u (p :: rest) = p :: rest ∧
    ∃ s, (p, s) ∈ types.flatMap env.type_paths ∧
      ∀ q ∈ types.flatMap env.type_paths, q.2 ≤ s := by
  have hbc := candidatesAfterFallback_ok env types (p :: rest) hc
  rw [buildCandidates, if_pos hstat] at hbc
  refine ⟨by simp [topPaths, hstat], ?_⟩
  unfold buildCandidatesStat at hbc
  cases hsp : statPairs env types with
  | nil => rw [hsp] at hbc; simp at hbc
  | cons hd tl =>
    rw [hsp] at hbc
    simp only [List.map_cons, List.cons.injEq] at hbc
    obtain ⟨hph, -⟩ := hbc
    have hsorted : List.Sorted scoreDesc (statPairs env types) :=
      List.sorted_insertionSort scoreDesc _
    rw [hsp] at hsorted
    refine ⟨hd.2, ?_, ?_⟩
    · have hmem : hd ∈ statPairs env types := by
        rw [hsp]; exact List.mem_cons_self _ _
      have hdd : hd ∈ (types.flatMap env.type_paths).dedup :=
        (List.perm_insertionSort scoreDesc _).subset hmem
      have hfm := List.mem_dedup.mp hdd
      have hpe : (p, hd.2) = hd := by rw [hph]
      rw [hpe]
      exact hfm
    · intro q hq
      have hq2 : q ∈ statPairs env types :=
        (List.perm_insertionSort scoreDesc _).symm.subset (List.mem_dedup.mpr hq)
      rw [hsp] at hq2
      rcases List.mem_cons.mp hq2 with hh | hh
      · rw [hh]
      · exact List.rel_of_sorted_cons hsorted q hh

/-- C7 witness: for the specification example in statistic mode, the sorted
candidate list is passed through unchanged and its head ["P31"] has the
maximal score 0.9. -/
theorem claim_C7_witness :
    topPaths envSpecExample "u" [["P31"], ["P21"]] = [["P31"], ["P21"]] ∧
    ∃ s, (["P31"], s) ∈ (typesOf envSpecExample "Q1").flatMap envSpecExample.type_paths ∧
      ∀ q ∈ (typesOf envSpecExample "Q1").flatMap envSpecExample.type_paths, q.2 ≤ s :=
  claim_C7 envSpecExample "u" (typesOf envSpecExample "Q1") ["P31"] [["P21"]] rfl
    (by with_unfolding_all decide)

/-- C1 counterexample: the claim that a retrieved-path confidence is
non-negative by construction is false — when the average relation frequency
is 1/2, the confidence min(log(1/2)/8, 1) * 0.9 is negative. -/
theorem claim_C1_counterexample :
    processItem envHalfFreq "u" [Entity.str "Q1"] =
      .ok (["P1", "P2"], Conf.scored (1/2)) ∧
    Conf.val envHalfFreq.max_log_freq (Conf.scored (1/2)) < 0 := by
  refine ⟨by with_unfolding_all decide, ?_⟩
  show min (Real.log (((1:ℚ)/2 : ℚ) : ℝ) / ((8:ℚ) : ℝ)) 1 * 0.9 < 0
  have hc : (((1:ℚ)/2 : ℚ) : ℝ) = 1/2 := by norm_num
  have h8 : (((8:ℚ)) : ℝ) = 8 := by norm_num
  rw [hc, h8]
  have hlog : Real.log ((1:ℝ)/2) < 0 := Real.log_neg (by norm_num) (by norm_num)
  have hmin : min (Real.log ((1:ℝ)/2) / 8) 1 ≤ Real.log ((1:ℝ)/2) / 8 := min_le_left _ _
  nlinarith [hlog, hmin]

/-- C1 amended: for every batch item in which a concrete path is retrieved,
the confidence is clamped above by the min(..., 1.0) rule — it is at most
0.9, hence at most 1.0 — and the underlying average frequency is strictly
positive; the confidence is non-negative whenever that average frequency is
at least 1 (with a positive max_log_freq), but it is NOT non-negative in
general: it is negative when the average frequency lies strictly between 0
and 1. -/
theorem claim_C1_amended (env : RankerEnv) (u : String) (el : List Entity)
    (p : Path) (raw : ℚ)
    (h : processItem env u el = .ok (p, .scored raw))
    (hm : 0 < env.max_log_freq) :
    Conf.val env.max_log_freq (Conf.scored raw) ≤ 0.9 ∧ 0 < raw ∧
    (1 ≤ raw → 0 ≤ Conf.val env.max_log_freq (Conf.scored raw)) := by
  obtain ⟨rels, hs⟩ := processItem_ok_scored env u el p raw h
  have hpos := scoreConf_ok_pos env rels raw hs
  refine ⟨?_, hpos, ?_⟩
  · show min (Real.log (raw : ℝ) / (env.max_log_freq : ℝ)) 1 * 0.9 ≤ 0.9
    have h1 : min (Real.log (raw : ℝ) / (env.max_log_freq : ℝ)) 1 ≤ 1 := min_le_right _ _
    linarith
  · intro h1
    show 0 ≤ min (Real.log (raw : ℝ) / (env.max_log_freq : ℝ)) 1 * 0.9
    have hl : 0 ≤ Real.log (raw : ℝ) := Real.log_nonneg (by exact_mod_cast h1)
    have hmr : (0:ℝ) < (env.max_log_freq : ℝ) := by exact_mod_cast hm
    have hd : 0 ≤ Real.log (raw : ℝ) / (env.max_log_freq : ℝ) := div_nonneg hl hmr.le
    have hge := le_min hd zero_le_one
    linarith

/-- C1 witness: for the specification example (average frequency 100,
max_log_freq 8) the amended bounds hold. -/
theorem claim_C1_witness :
    Conf.val envSpecExample.max_log_freq (Conf.scored 100) ≤ 0.9 ∧ (0:ℚ) < 100 ∧
    (1 ≤ (100:ℚ) → 0 ≤ Conf.val envSpecExample.max_log_freq (Conf.scored 100)) :=
  claim_C1_amended envSpecExample "u" [Entity.str "Q1"] ["P31"] 100
    (by with_unfolding_all decide) (by with_unfolding_all decide)

/-- C4: on the specification example — statistic mode, type "TypeA" with
scored paths ["P31"] (0.9) and ["P21"] (0.5), retrieval confirming ["P31"],
frequency table {"P31": [100]}, max_log_freq 8 — the candidates are sorted
to [["P31"], ["P21"]], the output is (["P31"], scored 100), and the
confidence equals min(log(100)/8, 1) * 0.9, which lies strictly between
0.51 and 0.52 (the claimed ~0.518). -/
theorem claim_C4 :
    buildCandidates envSpecExample (typesOf envSpecExample "Q1") = [["P31"], ["P21"]] ∧
    processItem envSpecExample "u" [Entity.str "Q1"] = .ok (["P31"], Conf.scored 100) ∧
    Conf.val envSpecExample.max_log_freq (Conf.scored 100) =
      min (Real.log 100 / 8) 1 * 0.9 ∧
    0.51 < Conf.val envSpecExample.max_log_freq (Conf.scored 100) ∧
    Conf.val envSpecExample.max_log_freq (Conf.scored 100) < 0.52 := by
  have hval : Conf.val envSpecExample.max_log_freq (Conf.scored 100) =
      min (Real.log 100 / 8) 1 * 0.9 := by
    show min (Real.log ((100:ℚ) : ℝ) / ((8:ℚ) : ℝ)) 1 * 0.9 = min (Real.log 100 / 8) 1 * 0.9
    norm_num
  have hub : Real.log 100 < 4.621 := by
    have hp : (100:ℝ) ^ (3:ℕ) < (2:ℝ) ^ (20:ℕ) := by norm_num
    have hl := Real.log_lt_log (by positivity) hp
    rw [Real.log_pow, Real.log_pow] at hl
    have h2 := Real.log_two_lt_d9
    push_cast at hl
    linarith
  have hlb : (4.574 : ℝ) < Real.log 100 := by
    have hp : (2:ℝ) ^ (33:ℕ) < (100:ℝ) ^ (5:ℕ) := by norm_num
    have hl := Real.log_lt_log (by positivity) hp
    rw [Real.log_pow, Real.log_pow] at hl
    have h2 := Real.log_two_gt_d9
    push_cast at hl
    linarith
  have hmin : min (Real.log 100 / 8) 1 = Real.log 100 / 8 := min_eq_left (by linarith)
  refine ⟨by with_unfolding_all decide, by with_unfolding_all decide, hval, ?_, ?_⟩
  · rw [hval, hmin]; linarith
  · rw [hval, hmin]; linarith

end KGDial
